import Mathlib

/-!
Verification development for the dovu-governance voting-stream service.

The definitions below are a shallow embedding of the repository source:
the rules-processing service in its two embedded versions (namespaces
Part001 and Part002), the governance data store for rules, the mirror
node gateway interface, the application-configuration loader, and the
read-API ballot endpoint.  JavaScript numbers are modelled as either NaN
or a rational, JavaScript truthiness is modelled explicitly, and thrown
exceptions are modelled with the Except monad.
-/

/-- A JavaScript number value: either NaN or a real (rational) value. -/
inductive JsNum where
  | nan : JsNum
  | num : ℚ → JsNum
deriving DecidableEq

/-- JavaScript truthiness of a number: 0 and NaN are falsy. -/
def JsNum.truthy : JsNum → Bool
  | JsNum.nan => false
  | JsNum.num q => if q = 0 then false else true

/-- JavaScript truthiness of an optional number: undefined is falsy. -/
def jsTruthyNum : Option JsNum → Bool
  | none => false
  | some v => v.truthy

/-- The JavaScript check Number.isNaN applied to an optional number:
true only for an actual NaN value (undefined gives false). -/
def numberIsNaN : Option JsNum → Bool
  | some JsNum.nan => true
  | _ => false

/-- JavaScript comparison of a number against a rational bound: any
comparison against NaN is false. -/
def JsNum.ltB : JsNum → ℚ → Bool
  | JsNum.nan, _ => false
  | JsNum.num q, c => decide (q < c)

/-- JavaScript greater-than comparison against a rational bound: any
comparison against NaN is false. -/
def JsNum.gtB : JsNum → ℚ → Bool
  | JsNum.nan, _ => false
  | JsNum.num q, c => decide (c < q)

/-- JavaScript truthiness of an optional string: undefined and the
empty string are falsy. -/
def jsTruthyStr : Option String → Bool
  | none => false
  | some s => if s = "" then false else true

/-- The JavaScript string expression a or-else b: keep a when truthy,
otherwise use b. -/
def jsOrStr (a : Option String) (b : String) : Option String :=
  if jsTruthyStr a then a else some b

/-- Split a character list at every dot, keeping empty groups. -/
def splitOnDot : List Char → List (List Char)
  | [] => [[]]
  | c :: cs =>
    if c = '.' then [] :: splitOnDot cs
    else
      match splitOnDot cs with
      | [] => [[c]]
      | g :: gs => (c :: g) :: gs

/-- A nonempty run of decimal digits. -/
def digitGroup (cs : List Char) : Bool :=
  !cs.isEmpty && cs.all Char.isDigit

/-- Modelled from the spec: the external hapi-util is entity id check,
absent from src.  A ledger entity id follows the canonical
shard.realm.num encoding: three dot-separated nonempty digit groups. -/
def is_entity_id (s : String) : Bool :=
  match splitOnDot s.data with
  | [a, b, c] => digitGroup a && digitGroup b && digitGroup c
  | _ => false

/-- Modelled from the spec: the external hapi-util timestamp check,
absent from src.  A consensus timestamp follows the canonical
seconds.nanoseconds encoding: two dot-separated nonempty digit groups. -/
def is_timestamp (s : String) : Bool :=
  match splitOnDot s.data with
  | [a, b] => digitGroup a && digitGroup b
  | _ => false

/-- Lexicographic comparison of character lists by code point, the
order JavaScript uses to compare strings. -/
def charListLt : List Char → List Char → Bool
  | [], [] => false
  | [], _ :: _ => true
  | _ :: _, [] => false
  | a :: as, b :: bs =>
    if a.val < b.val then true
    else if b.val < a.val then false
    else charListLt as bs

/-- The JavaScript string comparison a greater-than b. -/
def jsStrGt (a b : String) : Bool := charListLt b.data a.data

/-- Token metadata returned by the mirror node gateway. -/
structure TokenSummary where
  symbol : String
  name : String
deriving DecidableEq

/-- Outcome of asking the mirror node gateway for token metadata:
found, a 404 mirror error, or some other thrown failure. -/
inductive TokenInfoResult where
  | found : TokenSummary → TokenInfoResult
  | notFound : TokenInfoResult
  | failed : String → TokenInfoResult
deriving DecidableEq

/-- The mirror node REST gateway, reduced to the one query the rules
processor uses. -/
structure MirrorClientService where
  getTokenInfo : String → TokenInfoResult

/-- The define-rules message payload, matching the RulesDefinition
model: every field may be absent. -/
structure RulesDefinition where
  title : Option String
  description : Option String
  tokenId : Option String
  minVotingThreshold : Option JsNum
  minimumVotingPeriod : Option JsNum
  minimumStandoffPeriod : Option JsNum
  ineligibleAccounts : Option (List String)
  ballotCreators : Option (List String)
deriving DecidableEq

/-- A stored rule: the payload fields plus the consensus timestamp and
payer account of the message that carried it, matching models/rules. -/
structure Rule extends RulesDefinition where
  hcsToken : Option TokenSummary := none
  consensusTimestamp : String
  payerId : String
deriving DecidableEq

/-- The mirror record of a message: its consensus timestamp and the
account that paid for (submitted) it. -/
structure MessageInfo where
  consensus_timestamp : String
  payer_account_id : String
deriving DecidableEq

/-- The raw HCS message envelope, reduced to the sequence number the
processor uses for logging. -/
structure ConsensusTopicResponse where
  sequenceNumber : Nat
deriving DecidableEq

/-- The rule object the processor builds at the top of processMessage:
payload fields spread together with the consensus timestamp and payer
taken from the mirror record. -/
def mkRule (hcsMirrorRecord : MessageInfo) (hcsPayload : RulesDefinition) : Rule :=
  { toRulesDefinition := hcsPayload
    consensusTimestamp := hcsMirrorRecord.consensus_timestamp
    payerId := hcsMirrorRecord.payer_account_id }

/-- The rules portion of the data store, matching the Rules model in
models/rules: an array of admitted rules (the source names the array
field votes). -/
structure Rules where
  votes : List Rule
deriving DecidableEq

/-- Modelled from the spec: DataService.getFirstRule, whose source
(services/data.service.ts) is not under src.  Returns the earliest
admitted rule of the store, if any. -/
def getFirstRule (dataService : Rules) : Option Rule :=
  dataService.votes.head?

/-- Modelled from the spec: DataService.getRule, whose source
(services/data.service.ts) is not under src.  Looks an admitted rule up
by its consensus timestamp key. -/
def getRule (dataService : Rules) (consensusTimestamp : String) : Option Rule :=
  dataService.votes.find? (fun r => r.consensusTimestamp = consensusTimestamp)

/-- Modelled from the spec: DataService.setRule, whose source
(services/data.service.ts) is not under src.  Inserts an admitted rule,
appending it to the array of rules of the Rules model. -/
def setRule (dataService : Rules) (rule : Rule) : Rules :=
  { votes := dataService.votes ++ [rule] }

/-- Modelled from the spec: DataService.getLatestRule, whose source
(services/data.service.ts) is not under src.  Returns the most recently
admitted rule of the store, if any. -/
def getLatestRule (dataService : Rules) : Option Rule :=
  dataService.votes.getLast?

/-- Result of the synchronous phase of processMessage: either the noop
closure (the message was rejected after logging) or the deferred
asynchronous effect, which captures the constructed rule. -/
inductive SyncResult where
  | noop : SyncResult
  | deferred : Rule → SyncResult
deriving DecidableEq

/-- Observable outcome of running the deferred effect: the duplicate
log line, a logged validation error, or a successful insertion. -/
inductive EffectLog where
  | duplicateRule : EffectLog
  | validationFailed : String → EffectLog
  | added : EffectLog
deriving DecidableEq

/-- Observable outcome of processing one message end to end. -/
inductive StepLog where
  | authorityRejected : StepLog
  | effectRan : EffectLog → StepLog
deriving DecidableEq

/-- Backfill of title and description from the token metadata, as done
inside the deferred effect of the full processor before validation. -/
def backfillRule (rule : Rule) (hcsToken : TokenSummary) : Rule :=
  { rule with
    title := jsOrStr rule.title hcsToken.symbol
    description := jsOrStr rule.description hcsToken.name }

/-- Account list validation: absent lists are accepted as empty, and
every entry of a present list must be a well-formed entity id, the
first offender raising an error. -/
def verifyAccountList : Option (List String) → Except String (List String)
  | none => Except.ok []
  | some accounts =>
    match accounts.find? (fun account => !(is_entity_id account)) with
    | some account => Except.error (account ++ " is not a valid account id.")
    | none => Except.ok accounts

/-- Minimum voting threshold validation: a falsy value (absent, zero or
NaN) is accepted as zero, an explicit NaN would raise, and a value
outside zero to one inclusive raises. -/
def verifyMinVotingThreshold (rule : Rule) : Except String JsNum :=
  if !(jsTruthyNum rule.minVotingThreshold) then
    Except.ok (JsNum.num 0)
  else
    match rule.minVotingThreshold with
    | none => Except.ok (JsNum.num 0)
    | some v =>
      if numberIsNaN (some v) then
        Except.error "value is not a valid voting threshold value."
      else if v.ltB 0 || v.gtB 1 then
        Except.error "Voting threshold must be within the range of zero to one inclusive."
      else
        Except.ok v

/-- Minimum voting period validation: a falsy value is accepted as
zero, and a negative value raises. -/
def verifyMinimumVotingPeriod (rule : Rule) : Except String JsNum :=
  if !(jsTruthyNum rule.minimumVotingPeriod) then
    Except.ok (JsNum.num 0)
  else
    match rule.minimumVotingPeriod with
    | none => Except.ok (JsNum.num 0)
    | some v =>
      if numberIsNaN (some v) then
        Except.error "value is not a valid minimum voting period."
      else if v.ltB 0 then
        Except.error "If specified, the minimum voting period must be non negative."
      else
        Except.ok v

/-- Minimum standoff period validation: a falsy value is accepted as
zero, and a negative value raises. -/
def verifyMinimumStandoffPeriod (rule : Rule) : Except String JsNum :=
  if !(jsTruthyNum rule.minimumStandoffPeriod) then
    Except.ok (JsNum.num 0)
  else
    match rule.minimumStandoffPeriod with
    | none => Except.ok (JsNum.num 0)
    | some v =>
      if numberIsNaN (some v) then
        Except.error "value is not a valid voting starting standoff period."
      else if v.ltB 0 then
        Except.error "If specified, the voting starting standoff period must be non negative."
      else
        Except.ok v

/-- Token metadata lookup of the full processor: raises when the token
id is falsy or malformed, translates a 404 from the gateway into a
does-not-exist error, and re-raises any other gateway failure. -/
def getHcsTokenInfo (mirrorClient : MirrorClientService) (rule : Rule) : Except String TokenSummary :=
  if !(jsTruthyStr rule.tokenId) then
    Except.error "Voting Token ID is missing from configuration."
  else
    match rule.tokenId with
    | none => Except.error "Voting Token ID is missing from configuration."
    | some tokenId =>
      if !(is_entity_id tokenId) then
        Except.error ("The value " ++ tokenId ++ " is not a valid token ID.")
      else
        match mirrorClient.getTokenInfo tokenId with
        | TokenInfoResult.found t => Except.ok t
        | TokenInfoResult.notFound =>
          Except.error ("Voting Token with id " ++ tokenId ++ " does not appear to exist.")
        | TokenInfoResult.failed e => Except.error e

/-- The body of the try block of the deferred effect of the full
processor: fetch the token, backfill title and description, then run
the field validations in source order; the first raised error aborts
with no insertion. -/
def validateAndBackfill (mirrorClient : MirrorClientService) (rule : Rule) : Except String Rule :=
  match getHcsTokenInfo mirrorClient rule with
  | Except.error e => Except.error e
  | Except.ok hcsToken =>
    match verifyAccountList (backfillRule rule hcsToken).ineligibleAccounts with
    | Except.error e => Except.error e
    | Except.ok _ =>
      match verifyAccountList (backfillRule rule hcsToken).ballotCreators with
      | Except.error e => Except.error e
      | Except.ok _ =>
        match verifyMinVotingThreshold (backfillRule rule hcsToken) with
        | Except.error e => Except.error e
        | Except.ok _ =>
          match verifyMinimumVotingPeriod (backfillRule rule hcsToken) with
          | Except.error e => Except.error e
          | Except.ok _ =>
            match verifyMinimumStandoffPeriod (backfillRule rule hcsToken) with
            | Except.error e => Except.error e
            | Except.ok _ => Except.ok (backfillRule rule hcsToken)

namespace Part001

/-- Synchronous phase of HcsRulesProcessingService.processMessage in
its full version: build the rule from the payload and mirror record,
reject with the noop closure when a first rule exists and was submitted
by a different payer, and otherwise return the deferred effect. -/
def processMessage (dataService : Rules) (_hcsMessage : ConsensusTopicResponse)
    (hcsMirrorRecord : MessageInfo) (hcsPayload : RulesDefinition) : SyncResult :=
  let rule := mkRule hcsMirrorRecord hcsPayload
  match getFirstRule dataService with
  | some firstRule =>
    if firstRule.payerId ≠ rule.payerId then SyncResult.noop
    else SyncResult.deferred rule
  | none => SyncResult.deferred rule

/-- The deferred asynchronous effect of the full processor: reject a
duplicate consensus timestamp, otherwise fetch the token metadata,
backfill and validate, inserting the rule on success; every raised
error is caught and logged, never escaping the effect. -/
def runEffect (mirrorClient : MirrorClientService) (dataService : Rules) (rule : Rule) :
    Rules × EffectLog :=
  match getRule dataService rule.consensusTimestamp with
  | some _ => (dataService, EffectLog.duplicateRule)
  | none =>
    match validateAndBackfill mirrorClient rule with
    | Except.ok validated => (setRule dataService validated, EffectLog.added)
    | Except.error e => (dataService, EffectLog.validationFailed e)

/-- End-to-end processing of one define-rules message through the full
processor: run the synchronous phase, then run the deferred effect it
returned, if any, against the same store. -/
def step (mirrorClient : MirrorClientService) (dataService : Rules)
    (hcsMessage : ConsensusTopicResponse) (hcsMirrorRecord : MessageInfo)
    (hcsPayload : RulesDefinition) : Rules × StepLog :=
  match processMessage dataService hcsMessage hcsMirrorRecord hcsPayload with
  | SyncResult.noop => (dataService, StepLog.authorityRejected)
  | SyncResult.deferred rule =>
    let result := runEffect mirrorClient dataService rule
    (result.1, StepLog.effectRan result.2)

end Part001

namespace Part002

/-- Synchronous phase of HcsRulesProcessingService.processMessage in
its simple version: identical to the full version, an authority check
against the first admitted rule. -/
def processMessage (dataService : Rules) (_hcsMessage : ConsensusTopicResponse)
    (hcsMirrorRecord : MessageInfo) (hcsPayload : RulesDefinition) : SyncResult :=
  let rule := mkRule hcsMirrorRecord hcsPayload
  match getFirstRule dataService with
  | some firstRule =>
    if firstRule.payerId ≠ rule.payerId then SyncResult.noop
    else SyncResult.deferred rule
  | none => SyncResult.deferred rule

/-- The deferred effect of the simple processor: reject a duplicate
consensus timestamp, otherwise insert the rule exactly as received,
with no gateway call and no field validation. -/
def runEffect (dataService : Rules) (rule : Rule) : Rules × EffectLog :=
  match getRule dataService rule.consensusTimestamp with
  | some _ => (dataService, EffectLog.duplicateRule)
  | none => (setRule dataService rule, EffectLog.added)

/-- End-to-end processing of one define-rules message through the
simple processor. -/
def step (dataService : Rules) (hcsMessage : ConsensusTopicResponse)
    (hcsMirrorRecord : MessageInfo) (hcsPayload : RulesDefinition) : Rules × StepLog :=
  match processMessage dataService hcsMessage hcsMirrorRecord hcsPayload with
  | SyncResult.noop => (dataService, StepLog.authorityRejected)
  | SyncResult.deferred rule =>
    let result := runEffect dataService rule
    (result.1, StepLog.effectRan result.2)

end Part002

/-- The loaded application configuration, matching the
AppConfiguration model: mirror endpoints may be absent from the
environment, topic and start date are validated strings. -/
structure AppConfiguration where
  mirrorGrpc : Option String
  mirrorRest : Option String
  hcsTopic : String
  hcsStartDate : String
deriving DecidableEq

/-- The start-date filter helper inside loadAppConfiguration: a falsy
HCS_START_DATE yields the beginning-of-stream timestamp, a truthy one
must be a well-formed timestamp not greater (in the JavaScript string
order the source uses) than the current time, else it raises. -/
def computeStartDateFilter (env : String → Option String) (now : String) :
    Except String String :=
  match env "HCS_START_DATE" with
  | none => Except.ok "0.0"
  | some override =>
    if override = "" then Except.ok "0.0"
    else if !(is_timestamp override) then
      Except.error "Invalid HCS Starting Date in configuration."
    else if jsStrGt override now then
      Except.error "Invalid HCS Starting Date, value can not be in the future."
    else Except.ok override

/-- Configuration loading: reads the mirror endpoints, requires the HCS
topic to be present and a well-formed entity id, computes the start
date filter, and re-raises any failure so that startup aborts. -/
def loadAppConfiguration (env : String → Option String) (now : String) :
    Except String AppConfiguration :=
  match env "HCS_TOPIC" with
  | none => Except.error "Invalid HCS Topic in configuration."
  | some hcsTopic =>
    if !(is_entity_id hcsTopic) then
      Except.error "Invalid HCS Topic in configuration."
    else
      match computeStartDateFilter env now with
      | Except.error e => Except.error e
      | Except.ok hcsStartDate =>
        Except.ok
          { mirrorGrpc := env "MIRROR_GRPC"
            mirrorRest := env "MIRROR_REST"
            hcsTopic := hcsTopic
            hcsStartDate := hcsStartDate }

/-- Result of a read-API request: a payload or a thrown
NotFoundException. -/
inductive ApiResult (α : Type) where
  | ok : α → ApiResult α
  | notFoundException : ApiResult α
deriving DecidableEq

namespace AppController

/-- The get-ballot endpoint of the API controller: look the ballot and
its votes up through the data service and raise NotFoundException when
the lookup comes back empty.  The data service lookup itself
(DataService.getBallotAndVotes) is not under src and is passed in as an
abstract function returning an optional result. -/
def getBallot {α : Type} (getBallotAndVotes : String → Option α) (ballotId : String) :
    ApiResult α :=
  match getBallotAndVotes ballotId with
  | some result => ApiResult.ok result
  | none => ApiResult.notFoundException

end AppController

/-- A mirror gateway on which every token exists, answering with fixed
metadata. -/
def mirrorAllFound : MirrorClientService :=
  { getTokenInfo := fun _ => TokenInfoResult.found { symbol := "DOV", name := "Dovu Token" } }

/-- A mirror gateway that reports every token as a 404. -/
def mirrorNoneFound : MirrorClientService :=
  { getTokenInfo := fun _ => TokenInfoResult.notFound }

/-- A well-formed define-rules payload used as concrete test input. -/
def samplePayload : RulesDefinition :=
  { title := some "Governance Voting Platform"
    description := some "A decentralized voting platform"
    tokenId := some "0.0.123456"
    minVotingThreshold := some (JsNum.num (mkRat 1 10))
    minimumVotingPeriod := some (JsNum.num 7)
    minimumStandoffPeriod := some (JsNum.num 0)
    ineligibleAccounts := none
    ballotCreators := none }

/-- The sample payload with a NaN minimum voting threshold. -/
def samplePayloadNan : RulesDefinition :=
  { samplePayload with minVotingThreshold := some JsNum.nan }

/-- The sample payload with an out-of-range minimum voting threshold. -/
def samplePayloadBigThreshold : RulesDefinition :=
  { samplePayload with minVotingThreshold := some (JsNum.num 2) }

/-- Mirror record of a first message, from payer 0.0.5. -/
def recordA : MessageInfo :=
  { consensus_timestamp := "1000.0", payer_account_id := "0.0.5" }

/-- Mirror record of a later message from the same payer 0.0.5. -/
def recordB : MessageInfo :=
  { consensus_timestamp := "2000.0", payer_account_id := "0.0.5" }

/-- Mirror record of a later message from a different payer 0.0.9. -/
def recordC : MessageInfo :=
  { consensus_timestamp := "3000.0", payer_account_id := "0.0.9" }

/-- Raw envelope for the first sample message. -/
def msgA : ConsensusTopicResponse := { sequenceNumber := 1 }

/-- Raw envelope for the second sample message. -/
def msgB : ConsensusTopicResponse := { sequenceNumber := 2 }

/-- Raw envelope for the third sample message. -/
def msgC : ConsensusTopicResponse := { sequenceNumber := 3 }

/-- The empty rules store at process start. -/
def emptyRules : Rules := { votes := [] }

/-- The store after the full processor admits the first sample
message. -/
def storeAfterA : Rules :=
  (Part001.step mirrorAllFound emptyRules msgA recordA samplePayload).1


/-! Helper lemmas about the embedded definitions. -/

theorem mkRule_payerId (hcsMirrorRecord : MessageInfo) (hcsPayload : RulesDefinition) :
    (mkRule hcsMirrorRecord hcsPayload).payerId = hcsMirrorRecord.payer_account_id := rfl

theorem mkRule_consensusTimestamp (hcsMirrorRecord : MessageInfo) (hcsPayload : RulesDefinition) :
    (mkRule hcsMirrorRecord hcsPayload).consensusTimestamp =
      hcsMirrorRecord.consensus_timestamp := rfl

theorem backfillRule_payerId (rule : Rule) (t : TokenSummary) :
    (backfillRule rule t).payerId = rule.payerId := rfl

theorem backfillRule_consensusTimestamp (rule : Rule) (t : TokenSummary) :
    (backfillRule rule t).consensusTimestamp = rule.consensusTimestamp := rfl

theorem find_append_of_none {α : Type} {p : α → Bool} {l₁ : List α} (l₂ : List α)
    (h : l₁.find? p = none) : (l₁ ++ l₂).find? p = l₂.find? p := by
  induction l₁ with
  | nil => rfl
  | cons a as ih =>
    cases hp : p a with
    | true => simp [List.find?, hp] at h
    | false =>
      simp only [List.find?, hp] at h
      simpa [List.find?, hp] using ih h

theorem validateAndBackfill_ok_shape {mirrorClient : MirrorClientService} {rule validated : Rule}
    (h : validateAndBackfill mirrorClient rule = Except.ok validated) :
    ∃ t, getHcsTokenInfo mirrorClient rule = Except.ok t ∧ validated = backfillRule rule t := by
  unfold validateAndBackfill at h
  cases htok : getHcsTokenInfo mirrorClient rule with
  | error e => rw [htok] at h; exact Except.noConfusion h
  | ok t =>
    simp only [htok] at h
    refine ⟨t, rfl, ?_⟩
    repeat' split at h
    all_goals first
      | exact Except.noConfusion h
      | (injection h with h; exact h.symm)

theorem validateAndBackfill_token_error {mirrorClient : MirrorClientService} {rule : Rule}
    {e : String} (h : getHcsTokenInfo mirrorClient rule = Except.error e) :
    validateAndBackfill mirrorClient rule = Except.error e := by
  unfold validateAndBackfill
  rw [h]

theorem runEffect1_duplicate (mirrorClient : MirrorClientService) (dataService : Rules)
    (rule r0 : Rule) (h : getRule dataService rule.consensusTimestamp = some r0) :
    Part001.runEffect mirrorClient dataService rule = (dataService, EffectLog.duplicateRule) := by
  unfold Part001.runEffect
  rw [h]

theorem runEffect1_fresh_ok {mirrorClient : MirrorClientService} {dataService : Rules}
    {rule validated : Rule} (h : getRule dataService rule.consensusTimestamp = none)
    (hv : validateAndBackfill mirrorClient rule = Except.ok validated) :
    Part001.runEffect mirrorClient dataService rule =
      (setRule dataService validated, EffectLog.added) := by
  unfold Part001.runEffect
  rw [h, hv]

theorem runEffect1_fresh_error {mirrorClient : MirrorClientService} {dataService : Rules}
    {rule : Rule} {e : String} (h : getRule dataService rule.consensusTimestamp = none)
    (hv : validateAndBackfill mirrorClient rule = Except.error e) :
    Part001.runEffect mirrorClient dataService rule =
      (dataService, EffectLog.validationFailed e) := by
  unfold Part001.runEffect
  rw [h, hv]

theorem runEffect2_duplicate (dataService : Rules) (rule r0 : Rule)
    (h : getRule dataService rule.consensusTimestamp = some r0) :
    Part002.runEffect dataService rule = (dataService, EffectLog.duplicateRule) := by
  unfold Part002.runEffect
  rw [h]

theorem runEffect2_fresh (dataService : Rules) (rule : Rule)
    (h : getRule dataService rule.consensusTimestamp = none) :
    Part002.runEffect dataService rule = (setRule dataService rule, EffectLog.added) := by
  unfold Part002.runEffect
  rw [h]

theorem processMessage1_noop_iff (dataService : Rules) (hcsMessage : ConsensusTopicResponse)
    (hcsMirrorRecord : MessageInfo) (hcsPayload : RulesDefinition) :
    Part001.processMessage dataService hcsMessage hcsMirrorRecord hcsPayload = SyncResult.noop ↔
      ∃ fr, getFirstRule dataService = some fr ∧
        fr.payerId ≠ hcsMirrorRecord.payer_account_id := by
  unfold Part001.processMessage
  cases h : getFirstRule dataService with
  | none => simp
  | some fr =>
    by_cases hp : fr.payerId = hcsMirrorRecord.payer_account_id
    · simp [mkRule, hp]
    · simp [mkRule, hp]

theorem processMessage2_noop_iff (dataService : Rules) (hcsMessage : ConsensusTopicResponse)
    (hcsMirrorRecord : MessageInfo) (hcsPayload : RulesDefinition) :
    Part002.processMessage dataService hcsMessage hcsMirrorRecord hcsPayload = SyncResult.noop ↔
      ∃ fr, getFirstRule dataService = some fr ∧
        fr.payerId ≠ hcsMirrorRecord.payer_account_id := by
  unfold Part002.processMessage
  cases h : getFirstRule dataService with
  | none => simp
  | some fr =>
    by_cases hp : fr.payerId = hcsMirrorRecord.payer_account_id
    · simp [mkRule, hp]
    · simp [mkRule, hp]

theorem processMessage1_deferred {dataService : Rules} {hcsMessage : ConsensusTopicResponse}
    {hcsMirrorRecord : MessageInfo} {hcsPayload : RulesDefinition} {rule : Rule}
    (h : Part001.processMessage dataService hcsMessage hcsMirrorRecord hcsPayload =
      SyncResult.deferred rule) :
    rule = mkRule hcsMirrorRecord hcsPayload ∧
      ∀ fr, getFirstRule dataService = some fr →
        fr.payerId = hcsMirrorRecord.payer_account_id := by
  unfold Part001.processMessage at h
  cases hf : getFirstRule dataService with
  | none =>
    rw [hf] at h
    simp only at h
    injection h with h
    exact ⟨h.symm, by intro fr hfr; exact Option.noConfusion hfr⟩
  | some fr =>
    rw [hf] at h
    simp only [mkRule, ne_eq] at h
    by_cases hp : fr.payerId = hcsMirrorRecord.payer_account_id
    · rw [if_neg (by simp [hp])] at h
      refine ⟨?_, ?_⟩
      · injection h with h
        rw [← h]
        rfl
      · intro fr2 hfr2
        injection hfr2 with hfr2
        rw [← hfr2]
        exact hp
    · exfalso
      rw [if_pos (by simpa using hp)] at h
      exact SyncResult.noConfusion h

theorem processMessage_same : Part002.processMessage = Part001.processMessage := rfl

theorem processMessage1_deferred_of_payer {dataService : Rules}
    {hcsMessage : ConsensusTopicResponse} {hcsMirrorRecord : MessageInfo}
    {hcsPayload : RulesDefinition}
    (h : ∀ fr, getFirstRule dataService = some fr →
      fr.payerId = hcsMirrorRecord.payer_account_id) :
    Part001.processMessage dataService hcsMessage hcsMirrorRecord hcsPayload =
      SyncResult.deferred (mkRule hcsMirrorRecord hcsPayload) := by
  unfold Part001.processMessage
  cases hf : getFirstRule dataService with
  | none => rfl
  | some fr =>
    have hfp := h fr hf
    simp only [mkRule, ne_eq]
    rw [if_neg (by simp [hfp])]

theorem step1_of_noop (mirrorClient : MirrorClientService) (dataService : Rules)
    (hcsMessage : ConsensusTopicResponse) (hcsMirrorRecord : MessageInfo)
    (hcsPayload : RulesDefinition)
    (h : Part001.processMessage dataService hcsMessage hcsMirrorRecord hcsPayload =
      SyncResult.noop) :
    Part001.step mirrorClient dataService hcsMessage hcsMirrorRecord hcsPayload =
      (dataService, StepLog.authorityRejected) := by
  unfold Part001.step
  rw [h]

theorem step1_of_deferred {mirrorClient : MirrorClientService} {dataService : Rules}
    {hcsMessage : ConsensusTopicResponse} {hcsMirrorRecord : MessageInfo}
    {hcsPayload : RulesDefinition} {rule : Rule}
    (h : Part001.processMessage dataService hcsMessage hcsMirrorRecord hcsPayload =
      SyncResult.deferred rule) :
    Part001.step mirrorClient dataService hcsMessage hcsMirrorRecord hcsPayload =
      ((Part001.runEffect mirrorClient dataService rule).1,
        StepLog.effectRan (Part001.runEffect mirrorClient dataService rule).2) := by
  unfold Part001.step
  rw [h]

theorem step2_of_noop (dataService : Rules) (hcsMessage : ConsensusTopicResponse)
    (hcsMirrorRecord : MessageInfo) (hcsPayload : RulesDefinition)
    (h : Part002.processMessage dataService hcsMessage hcsMirrorRecord hcsPayload =
      SyncResult.noop) :
    Part002.step dataService hcsMessage hcsMirrorRecord hcsPayload =
      (dataService, StepLog.authorityRejected) := by
  unfold Part002.step
  rw [h]

theorem step2_of_deferred {dataService : Rules} {hcsMessage : ConsensusTopicResponse}
    {hcsMirrorRecord : MessageInfo} {hcsPayload : RulesDefinition} {rule : Rule}
    (h : Part002.processMessage dataService hcsMessage hcsMirrorRecord hcsPayload =
      SyncResult.deferred rule) :
    Part002.step dataService hcsMessage hcsMirrorRecord hcsPayload =
      ((Part002.runEffect dataService rule).1,
        StepLog.effectRan (Part002.runEffect dataService rule).2) := by
  unfold Part002.step
  rw [h]

theorem getFirstRule_setRule (dataService : Rules) (rule : Rule) :
    getFirstRule (setRule dataService rule) = some ((getFirstRule dataService).getD rule) := by
  unfold getFirstRule setRule
  cases dataService.votes <;> rfl

theorem getRule_setRule_self {dataService : Rules} {rule : Rule} {ts : String}
    (h : getRule dataService ts = none) (hts : rule.consensusTimestamp = ts) :
    getRule (setRule dataService rule) ts = some rule := by
  unfold getRule setRule at *
  rw [find_append_of_none _ h]
  simp [List.find?, hts]

/-- C3 (amended): admitted Rules are immutable and never removed, and
only the first admitting payer can extend the store: processing a
define-rules message through the full processor either leaves the
stored rules exactly as they were, or appends one new Rule whose payer
is the message payer and equals the payer of the first admitted Rule
when one exists.  The store is not limited to a single Rule: a later
message from the same payer at a new consensus timestamp appends an
additional Rule. -/
theorem rules_append_only_amended (mirrorClient : MirrorClientService) (dataService : Rules)
    (hcsMessage : ConsensusTopicResponse) (hcsMirrorRecord : MessageInfo)
    (hcsPayload : RulesDefinition) :
    (Part001.step mirrorClient dataService hcsMessage hcsMirrorRecord hcsPayload).1.votes =
        dataService.votes ∨
      ∃ r, (Part001.step mirrorClient dataService hcsMessage hcsMirrorRecord
            hcsPayload).1.votes = dataService.votes ++ [r] ∧
        r.payerId = hcsMirrorRecord.payer_account_id ∧
        ∀ fr, getFirstRule dataService = some fr → r.payerId = fr.payerId := by
  cases hsync : Part001.processMessage dataService hcsMessage hcsMirrorRecord hcsPayload with
  | noop =>
    rw [step1_of_noop _ _ _ _ _ hsync]
    left
    rfl
  | deferred rule =>
    obtain ⟨hrule, hauth⟩ := processMessage1_deferred hsync
    rw [step1_of_deferred hsync]
    cases hdup : getRule dataService rule.consensusTimestamp with
    | some r0 =>
      rw [runEffect1_duplicate _ _ _ _ hdup]
      left
      rfl
    | none =>
      cases hval : validateAndBackfill mirrorClient rule with
      | error e =>
        rw [runEffect1_fresh_error hdup hval]
        left
        rfl
      | ok v =>
        rw [runEffect1_fresh_ok hdup hval]
        obtain ⟨t, htok, hveq⟩ := validateAndBackfill_ok_shape hval
        have hvp : v.payerId = hcsMirrorRecord.payer_account_id := by
          rw [hveq, backfillRule_payerId, hrule, mkRule_payerId]
        right
        refine ⟨v, rfl, hvp, ?_⟩
        intro fr hfr
        rw [hvp]
        exact (hauth fr hfr).symm

theorem step1_idempotent (mirrorClient : MirrorClientService) (dataService : Rules)
    (hcsMessage : ConsensusTopicResponse) (hcsMirrorRecord : MessageInfo)
    (hcsPayload : RulesDefinition) :
    (Part001.step mirrorClient
        (Part001.step mirrorClient dataService hcsMessage hcsMirrorRecord hcsPayload).1
        hcsMessage hcsMirrorRecord hcsPayload).1 =
      (Part001.step mirrorClient dataService hcsMessage hcsMirrorRecord hcsPayload).1 := by
  cases hsync : Part001.processMessage dataService hcsMessage hcsMirrorRecord hcsPayload with
  | noop =>
    rw [step1_of_noop _ _ _ _ _ hsync]
    rw [step1_of_noop _ _ _ _ _ hsync]
  | deferred rule =>
    obtain ⟨hrule, hauth⟩ := processMessage1_deferred hsync
    rw [step1_of_deferred hsync]
    cases hdup : getRule dataService rule.consensusTimestamp with
    | some r0 =>
      rw [runEffect1_duplicate _ _ _ _ hdup]
      rw [step1_of_deferred hsync, runEffect1_duplicate _ _ _ _ hdup]
    | none =>
      cases hval : validateAndBackfill mirrorClient rule with
      | error e =>
        rw [runEffect1_fresh_error hdup hval]
        rw [step1_of_deferred hsync, runEffect1_fresh_error hdup hval]
      | ok v =>
        rw [runEffect1_fresh_ok hdup hval]
        obtain ⟨t, htok, hveq⟩ := validateAndBackfill_ok_shape hval
        have hvp : v.payerId = hcsMirrorRecord.payer_account_id := by
          rw [hveq, backfillRule_payerId, hrule, mkRule_payerId]
        have hvts : v.consensusTimestamp = rule.consensusTimestamp := by
          rw [hveq, backfillRule_consensusTimestamp]
        have hfirst2 : ∀ fr, getFirstRule (setRule dataService v) = some fr →
            fr.payerId = hcsMirrorRecord.payer_account_id := by
          intro fr hfr
          rw [getFirstRule_setRule] at hfr
          injection hfr with hfr
          cases hg : getFirstRule dataService with
          | none =>
            rw [hg] at hfr
            simp only [Option.getD_none] at hfr
            rw [← hfr]
            exact hvp
          | some a =>
            rw [hg] at hfr
            simp only [Option.getD_some] at hfr
            rw [← hfr]
            exact hauth a hg
        have hsync2 : Part001.processMessage (setRule dataService v) hcsMessage
            hcsMirrorRecord hcsPayload = SyncResult.deferred rule := by
          rw [hrule]
          exact processMessage1_deferred_of_payer hfirst2
        have hdup2 : getRule (setRule dataService v) rule.consensusTimestamp = some v :=
          getRule_setRule_self hdup hvts
        rw [step1_of_deferred hsync2, runEffect1_duplicate _ _ _ _ hdup2]

theorem step2_idempotent (dataService : Rules) (hcsMessage : ConsensusTopicResponse)
    (hcsMirrorRecord : MessageInfo) (hcsPayload : RulesDefinition) :
    (Part002.step (Part002.step dataService hcsMessage hcsMirrorRecord hcsPayload).1
        hcsMessage hcsMirrorRecord hcsPayload).1 =
      (Part002.step dataService hcsMessage hcsMirrorRecord hcsPayload).1 := by
  cases hsync : Part002.processMessage dataService hcsMessage hcsMirrorRecord hcsPayload with
  | noop =>
    rw [step2_of_noop _ _ _ _ hsync]
    rw [step2_of_noop _ _ _ _ hsync]
  | deferred rule =>
    have hsync1 : Part001.processMessage dataService hcsMessage hcsMirrorRecord hcsPayload =
        SyncResult.deferred rule := by rw [← processMessage_same]; exact hsync
    obtain ⟨hrule, hauth⟩ := processMessage1_deferred hsync1
    rw [step2_of_deferred hsync]
    cases hdup : getRule dataService rule.consensusTimestamp with
    | some r0 =>
      rw [runEffect2_duplicate _ _ _ hdup]
      rw [step2_of_deferred hsync, runEffect2_duplicate _ _ _ hdup]
    | none =>
      rw [runEffect2_fresh _ _ hdup]
      have hrp : rule.payerId = hcsMirrorRecord.payer_account_id := by
        rw [hrule, mkRule_payerId]
      have hfirst2 : ∀ fr, getFirstRule (setRule dataService rule) = some fr →
          fr.payerId = hcsMirrorRecord.payer_account_id := by
        intro fr hfr
        rw [getFirstRule_setRule] at hfr
        injection hfr with hfr
        cases hg : getFirstRule dataService with
        | none =>
          rw [hg] at hfr
          simp only [Option.getD_none] at hfr
          rw [← hfr]
          exact hrp
        | some a =>
          rw [hg] at hfr
          simp only [Option.getD_some] at hfr
          rw [← hfr]
          exact hauth a hg
      have hsync2 : Part002.processMessage (setRule dataService rule) hcsMessage
          hcsMirrorRecord hcsPayload = SyncResult.deferred rule := by
        rw [processMessage_same]
        rw [processMessage1_deferred_of_payer hfirst2, hrule]
      have hdup2 : getRule (setRule dataService rule) rule.consensusTimestamp = some rule :=
        getRule_setRule_self hdup rfl
      rw [step2_of_deferred hsync2, runEffect2_duplicate _ _ _ hdup2]

theorem getHcsTokenInfo_missing {mirrorClient : MirrorClientService} {rule : Rule}
    (h : rule.tokenId = none) :
    getHcsTokenInfo mirrorClient rule =
      Except.error "Voting Token ID is missing from configuration." := by
  unfold getHcsTokenInfo
  rw [h]
  simp [jsTruthyStr]

theorem getHcsTokenInfo_empty {mirrorClient : MirrorClientService} {rule : Rule}
    (h : rule.tokenId = some "") :
    getHcsTokenInfo mirrorClient rule =
      Except.error "Voting Token ID is missing from configuration." := by
  unfold getHcsTokenInfo
  rw [h]
  simp [jsTruthyStr]

theorem getHcsTokenInfo_malformed {mirrorClient : MirrorClientService} {rule : Rule}
    {tid : String} (h : rule.tokenId = some tid) (hne : tid ≠ "")
    (hbad : is_entity_id tid = false) :
    getHcsTokenInfo mirrorClient rule =
      Except.error ("The value " ++ tid ++ " is not a valid token ID.") := by
  unfold getHcsTokenInfo
  rw [h]
  simp [jsTruthyStr, hne, hbad]

theorem getHcsTokenInfo_notFound {mirrorClient : MirrorClientService} {rule : Rule}
    {tid : String} (h : rule.tokenId = some tid) (hne : tid ≠ "")
    (hent : is_entity_id tid = true)
    (hnf : mirrorClient.getTokenInfo tid = TokenInfoResult.notFound) :
    getHcsTokenInfo mirrorClient rule =
      Except.error ("Voting Token with id " ++ tid ++ " does not appear to exist.") := by
  unfold getHcsTokenInfo
  rw [h]
  simp [jsTruthyStr, hne, hent, hnf]

/-- C1: once a Rule has been admitted (so the store has a first rule,
submitted by payer P), processing any later define-rules message whose
payer account id differs from P is rejected by both embedded processor
versions: the synchronous phase returns the noop closure, which only
logs, and end-to-end processing leaves the rules store unchanged. -/
theorem single_authority_rejection (mirrorClient : MirrorClientService)
    (dataService : Rules) (hcsMessage : ConsensusTopicResponse)
    (hcsMirrorRecord : MessageInfo) (hcsPayload : RulesDefinition) (firstRule : Rule)
    (hfr : getFirstRule dataService = some firstRule)
    (hne : hcsMirrorRecord.payer_account_id ≠ firstRule.payerId) :
    Part001.processMessage dataService hcsMessage hcsMirrorRecord hcsPayload =
        SyncResult.noop ∧
      Part002.processMessage dataService hcsMessage hcsMirrorRecord hcsPayload =
        SyncResult.noop ∧
      (Part001.step mirrorClient dataService hcsMessage hcsMirrorRecord hcsPayload).1 =
        dataService ∧
      (Part002.step dataService hcsMessage hcsMirrorRecord hcsPayload).1 = dataService := by
  have h1 : Part001.processMessage dataService hcsMessage hcsMirrorRecord hcsPayload =
      SyncResult.noop :=
    (processMessage1_noop_iff dataService hcsMessage hcsMirrorRecord hcsPayload).mpr
      ⟨firstRule, hfr, hne.symm⟩
  have h2 : Part002.processMessage dataService hcsMessage hcsMirrorRecord hcsPayload =
      SyncResult.noop :=
    (processMessage2_noop_iff dataService hcsMessage hcsMirrorRecord hcsPayload).mpr
      ⟨firstRule, hfr, hne.symm⟩
  refine ⟨h1, h2, ?_, ?_⟩
  · rw [step1_of_noop _ _ _ _ _ h1]
  · rw [step2_of_noop _ _ _ _ h2]

/-- C1 witness: with one admitted rule from payer 0.0.5 in the store, a
later define-rules message paid for by 0.0.9 is rejected as a noop by
both versions and the store does not change. -/
theorem single_authority_rejection_witness :
    Part001.processMessage storeAfterA msgC recordC samplePayload = SyncResult.noop ∧
      Part002.processMessage storeAfterA msgC recordC samplePayload = SyncResult.noop ∧
      (Part001.step mirrorAllFound storeAfterA msgC recordC samplePayload).1 = storeAfterA ∧
      (Part002.step storeAfterA msgC recordC samplePayload).1 = storeAfterA :=
  single_authority_rejection mirrorAllFound storeAfterA msgC recordC samplePayload
    (mkRule recordA samplePayload) (by decide) (by decide)

/-- C2: a define-rules message whose consensus timestamp equals the
timestamp of an already-stored Rule never mutates the store when its
deferred effect runs, in either processor version, and re-processing
any message a second time leaves the store exactly as after the first
processing. -/
theorem duplicate_message_idempotent (mirrorClient : MirrorClientService)
    (dataService : Rules) (hcsMessage : ConsensusTopicResponse)
    (hcsMirrorRecord : MessageInfo) (hcsPayload : RulesDefinition) (r0 : Rule)
    (hdup : getRule dataService hcsMirrorRecord.consensus_timestamp = some r0) :
    Part001.runEffect mirrorClient dataService (mkRule hcsMirrorRecord hcsPayload) =
        (dataService, EffectLog.duplicateRule) ∧
      Part002.runEffect dataService (mkRule hcsMirrorRecord hcsPayload) =
        (dataService, EffectLog.duplicateRule) ∧
      (Part001.step mirrorClient dataService hcsMessage hcsMirrorRecord hcsPayload).1 =
        dataService ∧
      (Part002.step dataService hcsMessage hcsMirrorRecord hcsPayload).1 = dataService ∧
      (Part001.step mirrorClient
          (Part001.step mirrorClient dataService hcsMessage hcsMirrorRecord hcsPayload).1
          hcsMessage hcsMirrorRecord hcsPayload).1 =
        (Part001.step mirrorClient dataService hcsMessage hcsMirrorRecord hcsPayload).1 ∧
      (Part002.step (Part002.step dataService hcsMessage hcsMirrorRecord hcsPayload).1
          hcsMessage hcsMirrorRecord hcsPayload).1 =
        (Part002.step dataService hcsMessage hcsMirrorRecord hcsPayload).1 := by
  refine ⟨runEffect1_duplicate _ _ _ r0 hdup, runEffect2_duplicate _ _ r0 hdup, ?_, ?_,
    step1_idempotent mirrorClient dataService hcsMessage hcsMirrorRecord hcsPayload,
    step2_idempotent dataService hcsMessage hcsMirrorRecord hcsPayload⟩
  · cases hsync : Part001.processMessage dataService hcsMessage hcsMirrorRecord hcsPayload with
    | noop => rw [step1_of_noop _ _ _ _ _ hsync]
    | deferred rule =>
      obtain ⟨hrule, _⟩ := processMessage1_deferred hsync
      rw [step1_of_deferred hsync, runEffect1_duplicate mirrorClient dataService rule r0
        (by rw [hrule]; exact hdup)]
  · cases hsync : Part002.processMessage dataService hcsMessage hcsMirrorRecord hcsPayload with
    | noop => rw [step2_of_noop _ _ _ _ hsync]
    | deferred rule =>
      have hsync1 : Part001.processMessage dataService hcsMessage hcsMirrorRecord hcsPayload =
          SyncResult.deferred rule := by rw [← processMessage_same]; exact hsync
      obtain ⟨hrule, _⟩ := processMessage1_deferred hsync1
      rw [step2_of_deferred hsync, runEffect2_duplicate dataService rule r0
        (by rw [hrule]; exact hdup)]

/-- C2 witness: re-delivering the already admitted first sample message
at the same consensus timestamp leaves the one-rule store unchanged in
both versions. -/
theorem duplicate_message_idempotent_witness :
    Part001.runEffect mirrorAllFound storeAfterA (mkRule recordA samplePayload) =
        (storeAfterA, EffectLog.duplicateRule) ∧
      Part002.runEffect storeAfterA (mkRule recordA samplePayload) =
        (storeAfterA, EffectLog.duplicateRule) ∧
      (Part001.step mirrorAllFound storeAfterA msgA recordA samplePayload).1 = storeAfterA ∧
      (Part002.step storeAfterA msgA recordA samplePayload).1 = storeAfterA ∧
      (Part001.step mirrorAllFound
          (Part001.step mirrorAllFound storeAfterA msgA recordA samplePayload).1
          msgA recordA samplePayload).1 =
        (Part001.step mirrorAllFound storeAfterA msgA recordA samplePayload).1 ∧
      (Part002.step (Part002.step storeAfterA msgA recordA samplePayload).1
          msgA recordA samplePayload).1 =
        (Part002.step storeAfterA msgA recordA samplePayload).1 :=
  duplicate_message_idempotent mirrorAllFound storeAfterA msgA recordA samplePayload
    (mkRule recordA samplePayload) (by decide)

/-- C3 counterexample: the store is not limited to one Rule for the
process lifetime.  After the first sample rule is admitted, a second
define-rules message from the same payer at a new consensus timestamp
is also admitted, leaving two stored Rules. -/
theorem second_rule_stored_counterexample :
    storeAfterA.votes.length = 1 ∧
      (Part001.step mirrorAllFound storeAfterA msgB recordB samplePayload).1.votes.length = 2 :=
  ⟨by decide, by decide⟩

/-- C3 witness: the amended append-only statement instantiated at the
second sample message over the one-rule store. -/
theorem rules_append_only_amended_witness :
    (Part001.step mirrorAllFound storeAfterA msgB recordB samplePayload).1.votes =
        storeAfterA.votes ∨
      ∃ r, (Part001.step mirrorAllFound storeAfterA msgB recordB samplePayload).1.votes =
          storeAfterA.votes ++ [r] ∧
        r.payerId = recordB.payer_account_id ∧
        ∀ fr, getFirstRule storeAfterA = some fr → r.payerId = fr.payerId :=
  rules_append_only_amended mirrorAllFound storeAfterA msgB recordB samplePayload

/-- C4 counterexample: the synchronous phase does not perform the
duplicate-timestamp check or the field-range checks.  A message whose
consensus timestamp duplicates the stored rule, and a message whose
minimum voting threshold is out of range, both receive a deferred
effect from the synchronous phase instead of the no-op an invalid
message would have to receive. -/
theorem sync_checks_deferred_counterexample :
    (getRule storeAfterA recordA.consensus_timestamp).isSome = true ∧
      Part001.processMessage storeAfterA msgA recordA samplePayload =
        SyncResult.deferred (mkRule recordA samplePayload) ∧
      Part001.processMessage emptyRules msgA recordA samplePayloadBigThreshold =
        SyncResult.deferred (mkRule recordA samplePayloadBigThreshold) :=
  ⟨by decide, by decide, by decide⟩

/-- C4 (amended): the synchronous phase of the full processor performs
only the authority check against current store state and returns either
the noop closure (exactly when a first rule exists with a different
payer) or a deferred effect capturing the constructed rule; the
duplicate-timestamp check and the field validations run inside the
deferred effect, which leaves the store unchanged when they fail. -/
theorem sync_phase_authority_only (dataService : Rules)
    (hcsMessage : ConsensusTopicResponse) (hcsMirrorRecord : MessageInfo)
    (hcsPayload : RulesDefinition) :
    (Part001.processMessage dataService hcsMessage hcsMirrorRecord hcsPayload =
        SyncResult.noop ↔
      ∃ fr, getFirstRule dataService = some fr ∧
        fr.payerId ≠ hcsMirrorRecord.payer_account_id) ∧
    (Part001.processMessage dataService hcsMessage hcsMirrorRecord hcsPayload =
        SyncResult.noop ∨
      Part001.processMessage dataService hcsMessage hcsMirrorRecord hcsPayload =
        SyncResult.deferred (mkRule hcsMirrorRecord hcsPayload)) ∧
    (∀ mirrorClient r0,
      getRule dataService hcsMirrorRecord.consensus_timestamp = some r0 →
      Part001.runEffect mirrorClient dataService (mkRule hcsMirrorRecord hcsPayload) =
        (dataService, EffectLog.duplicateRule)) ∧
    (∀ mirrorClient e,
      getRule dataService hcsMirrorRecord.consensus_timestamp = none →
      validateAndBackfill mirrorClient (mkRule hcsMirrorRecord hcsPayload) =
        Except.error e →
      Part001.runEffect mirrorClient dataService (mkRule hcsMirrorRecord hcsPayload) =
        (dataService, EffectLog.validationFailed e)) := by
  refine ⟨processMessage1_noop_iff dataService hcsMessage hcsMirrorRecord hcsPayload,
    ?_, ?_, ?_⟩
  · cases hsync : Part001.processMessage dataService hcsMessage hcsMirrorRecord hcsPayload with
    | noop => exact Or.inl rfl
    | deferred rule =>
      obtain ⟨hrule, _⟩ := processMessage1_deferred hsync
      rw [← hrule]
      exact Or.inr rfl
  · intro mirrorClient r0 hdup
    exact runEffect1_duplicate mirrorClient dataService _ r0 hdup
  · intro mirrorClient e hnone hval
    exact runEffect1_fresh_error hnone hval

/-- C4 witness: the amended statement instantiated at the first sample
message over the empty store. -/
theorem sync_phase_authority_only_witness :
    (Part001.processMessage emptyRules msgA recordA samplePayload = SyncResult.noop ↔
      ∃ fr, getFirstRule emptyRules = some fr ∧
        fr.payerId ≠ recordA.payer_account_id) ∧
    (Part001.processMessage emptyRules msgA recordA samplePayload = SyncResult.noop ∨
      Part001.processMessage emptyRules msgA recordA samplePayload =
        SyncResult.deferred (mkRule recordA samplePayload)) ∧
    (∀ mirrorClient r0, getRule emptyRules recordA.consensus_timestamp = some r0 →
      Part001.runEffect mirrorClient emptyRules (mkRule recordA samplePayload) =
        (emptyRules, EffectLog.duplicateRule)) ∧
    (∀ mirrorClient e, getRule emptyRules recordA.consensus_timestamp = none →
      validateAndBackfill mirrorClient (mkRule recordA samplePayload) = Except.error e →
      Part001.runEffect mirrorClient emptyRules (mkRule recordA samplePayload) =
        (emptyRules, EffectLog.validationFailed e)) :=
  sync_phase_authority_only emptyRules msgA recordA samplePayload

/-- C5: when the deferred effect of the full processor runs against a
fresh consensus timestamp and the declared token id is missing, empty,
malformed, or reported as nonexistent by the gateway, the effect
resolves to a logged validation failure with the store unchanged and no
escaping exception (the effect is a total function into a store and a
log value). -/
theorem token_failure_local (mirrorClient : MirrorClientService) (dataService : Rules)
    (rule : Rule) (hdup : getRule dataService rule.consensusTimestamp = none)
    (hfail : rule.tokenId = none ∨ rule.tokenId = some "" ∨
      (∃ tid, rule.tokenId = some tid ∧ is_entity_id tid = false) ∨
      (∃ tid, rule.tokenId = some tid ∧
        mirrorClient.getTokenInfo tid = TokenInfoResult.notFound)) :
    ∃ e, Part001.runEffect mirrorClient dataService rule =
      (dataService, EffectLog.validationFailed e) := by
  have herr : ∃ e, getHcsTokenInfo mirrorClient rule = Except.error e := by
    rcases hfail with h | h | ⟨tid, htid, hbad⟩ | ⟨tid, htid, hnf⟩
    · exact ⟨_, getHcsTokenInfo_missing h⟩
    · exact ⟨_, getHcsTokenInfo_empty h⟩
    · by_cases hemp : tid = ""
      · exact ⟨_, getHcsTokenInfo_empty (by rw [htid, hemp])⟩
      · exact ⟨_, getHcsTokenInfo_malformed htid hemp hbad⟩
    · by_cases hemp : tid = ""
      · exact ⟨_, getHcsTokenInfo_empty (by rw [htid, hemp])⟩
      · cases hent : is_entity_id tid with
        | false => exact ⟨_, getHcsTokenInfo_malformed htid hemp hent⟩
        | true => exact ⟨_, getHcsTokenInfo_notFound htid hemp hent hnf⟩
  obtain ⟨e, he⟩ := herr
  exact ⟨e, runEffect1_fresh_error hdup (validateAndBackfill_token_error he)⟩

/-- C5 witness: over the empty store, a rule whose token the gateway
reports as nonexistent is dropped with a logged validation failure. -/
theorem token_failure_local_witness :
    ∃ e, Part001.runEffect mirrorNoneFound emptyRules (mkRule recordA samplePayload) =
      (emptyRules, EffectLog.validationFailed e) :=
  token_failure_local mirrorNoneFound emptyRules (mkRule recordA samplePayload)
    (by decide)
    (Or.inr (Or.inr (Or.inr ⟨"0.0.123456", rfl, rfl⟩)))

/-- C6: the code admits a rule whose minimum voting threshold is NaN.
NaN is falsy in JavaScript, so the validator returns zero through its
not-specified early exit and its explicit NaN rejection is unreachable;
the full processor then stores the Rule with the NaN threshold intact.
This evaluates the embedding at the failing input. -/
theorem nan_threshold_admitted :
    verifyMinVotingThreshold (mkRule recordA samplePayloadNan) =
        Except.ok (JsNum.num 0) ∧
      (Part001.step mirrorAllFound emptyRules msgA recordA samplePayloadNan).1.votes.map
        (fun r => r.minVotingThreshold) = [some JsNum.nan] :=
  ⟨rfl, by decide⟩

/-- C7: configuration loading fails with a thrown error, aborting
startup, whenever the configured HCS topic is absent from the
environment or is not a well-formed entity id. -/
theorem invalid_topic_aborts (env : String → Option String) (now : String)
    (h : env "HCS_TOPIC" = none ∨
      ∃ t, env "HCS_TOPIC" = some t ∧ is_entity_id t = false) :
    loadAppConfiguration env now =
      Except.error "Invalid HCS Topic in configuration." := by
  unfold loadAppConfiguration
  rcases h with h | ⟨t, ht, hbad⟩
  · rw [h]
  · rw [ht]
    simp [hbad]

/-- C7 witness: an environment without HCS_TOPIC, and one with a
malformed HCS_TOPIC, both abort configuration loading. -/
theorem invalid_topic_aborts_witness :
    loadAppConfiguration (fun _ => none) "500.0" =
        Except.error "Invalid HCS Topic in configuration." ∧
      loadAppConfiguration (fun v => if v = "HCS_TOPIC" then some "banana" else none)
          "500.0" =
        Except.error "Invalid HCS Topic in configuration." :=
  ⟨invalid_topic_aborts (fun _ => none) "500.0" (Or.inl rfl),
    invalid_topic_aborts (fun v => if v = "HCS_TOPIC" then some "banana" else none) "500.0"
      (Or.inr ⟨"banana", by decide, by decide⟩)⟩

/-- C8: the get-ballot read API operation returns the ballot with its
votes and tally whenever the data service lookup knows the ballot id,
and fails with NotFoundException otherwise. -/
theorem get_ballot_contract {α : Type} (getBallotAndVotes : String → Option α)
    (ballotId : String) :
    (∀ r, getBallotAndVotes ballotId = some r →
        AppController.getBallot getBallotAndVotes ballotId = ApiResult.ok r) ∧
      (getBallotAndVotes ballotId = none →
        AppController.getBallot getBallotAndVotes ballotId =
          ApiResult.notFoundException) := by
  constructor
  · intro r h
    unfold AppController.getBallot
    rw [h]
  · intro h
    unfold AppController.getBallot
    rw [h]

/-- C8 witness: a known ballot id is returned and an unknown one raises
NotFoundException. -/
theorem get_ballot_contract_witness :
    AppController.getBallot (fun i => if i = "1.0" then some 42 else none) "1.0" =
        ApiResult.ok 42 ∧
      AppController.getBallot (fun i : String => if i = "1.0" then (some 42 : Option Nat)
          else none) "2.0" =
        ApiResult.notFoundException :=
  ⟨(get_ballot_contract (fun i => if i = "1.0" then some 42 else none) "1.0").1 42
      (by decide),
    (get_ballot_contract (fun i : String => if i = "1.0" then (some 42 : Option Nat)
      else none) "2.0").2 (by decide)⟩

/-- C9: the two embedded rules processors agree on rejections.  Their
synchronous phases are the same function, so they reject exactly the
same authority-mismatch cases; their deferred effects reject exactly
the same duplicate-timestamp cases without touching the store; and for
a fresh timestamp the simple version always stores the rule exactly as
received, while the full version stores only when the token lookup and
the field validations succeed, in which case the stored rule is the
received rule with title and description backfilled from the token
symbol and name. -/
theorem processors_agree (dataService : Rules) (hcsMessage : ConsensusTopicResponse)
    (hcsMirrorRecord : MessageInfo) (hcsPayload : RulesDefinition) :
    (Part001.processMessage dataService hcsMessage hcsMirrorRecord hcsPayload =
        Part002.processMessage dataService hcsMessage hcsMirrorRecord hcsPayload) ∧
    (∀ mirrorClient rule r0, getRule dataService rule.consensusTimestamp = some r0 →
      Part001.runEffect mirrorClient dataService rule =
          (dataService, EffectLog.duplicateRule) ∧
        Part002.runEffect dataService rule = (dataService, EffectLog.duplicateRule)) ∧
    (∀ rule, getRule dataService rule.consensusTimestamp = none →
      Part002.runEffect dataService rule = (setRule dataService rule, EffectLog.added)) ∧
    (∀ mirrorClient rule validated, getRule dataService rule.consensusTimestamp = none →
      validateAndBackfill mirrorClient rule = Except.ok validated →
      Part001.runEffect mirrorClient dataService rule =
          (setRule dataService validated, EffectLog.added) ∧
        ∃ t, getHcsTokenInfo mirrorClient rule = Except.ok t ∧
          validated = backfillRule rule t) ∧
    (∀ mirrorClient rule e, getRule dataService rule.consensusTimestamp = none →
      validateAndBackfill mirrorClient rule = Except.error e →
      Part001.runEffect mirrorClient dataService rule =
        (dataService, EffectLog.validationFailed e)) := by
  refine ⟨by rw [processMessage_same], ?_, ?_, ?_, ?_⟩
  · intro mirrorClient rule r0 hdup
    exact ⟨runEffect1_duplicate mirrorClient dataService rule r0 hdup,
      runEffect2_duplicate dataService rule r0 hdup⟩
  · intro rule hnone
    exact runEffect2_fresh dataService rule hnone
  · intro mirrorClient rule validated hnone hval
    exact ⟨runEffect1_fresh_ok hnone hval, validateAndBackfill_ok_shape hval⟩
  · intro mirrorClient rule e hnone hval
    exact runEffect1_fresh_error hnone hval

/-- C9 witness: over the empty store the simple version stores the
first sample rule as received, and over the one-rule store both
versions reject its duplicate without mutation. -/
theorem processors_agree_witness :
    Part002.runEffect emptyRules (mkRule recordA samplePayload) =
        (setRule emptyRules (mkRule recordA samplePayload), EffectLog.added) ∧
      Part001.runEffect mirrorAllFound storeAfterA (mkRule recordA samplePayload) =
        (storeAfterA, EffectLog.duplicateRule) ∧
      Part002.runEffect storeAfterA (mkRule recordA samplePayload) =
        (storeAfterA, EffectLog.duplicateRule) :=
  ⟨(processors_agree emptyRules msgA recordA samplePayload).2.2.1
      (mkRule recordA samplePayload) (by decide),
    ((processors_agree storeAfterA msgA recordA samplePayload).2.1 mirrorAllFound
      (mkRule recordA samplePayload) (mkRule recordA samplePayload) (by decide)).1,
    ((processors_agree storeAfterA msgA recordA samplePayload).2.1 mirrorAllFound
      (mkRule recordA samplePayload) (mkRule recordA samplePayload) (by decide)).2⟩

/-- C10: configuration loading rejects a truthy HCS_START_DATE that is
not a well-formed timestamp, or that compares greater than the current
time in the string order the source uses, and this failure propagates
out of loadAppConfiguration when the topic itself is valid; when
HCS_START_DATE is unset or empty the computed start filter is the
beginning-of-stream timestamp 0.0. -/
theorem start_date_filter_check (env : String → Option String) (now : String) :
    ((env "HCS_START_DATE" = none ∨ env "HCS_START_DATE" = some "") →
      computeStartDateFilter env now = Except.ok "0.0") ∧
    (∀ ov, env "HCS_START_DATE" = some ov → ov ≠ "" → is_timestamp ov = false →
      computeStartDateFilter env now =
        Except.error "Invalid HCS Starting Date in configuration.") ∧
    (∀ ov, env "HCS_START_DATE" = some ov → ov ≠ "" → is_timestamp ov = true →
      jsStrGt ov now = true →
      computeStartDateFilter env now =
        Except.error "Invalid HCS Starting Date, value can not be in the future.") ∧
    (∀ e, computeStartDateFilter env now = Except.error e →
      ∀ t, env "HCS_TOPIC" = some t → is_entity_id t = true →
      loadAppConfiguration env now = Except.error e) := by
  refine ⟨?_, ?_, ?_, ?_⟩
  · intro h
    unfold computeStartDateFilter
    rcases h with h | h
    · rw [h]
    · rw [h]
      simp
  · intro ov hov hne hbad
    unfold computeStartDateFilter
    rw [hov]
    simp [hne, hbad]
  · intro ov hov hne hok hfut
    unfold computeStartDateFilter
    rw [hov]
    simp [hne, hok, hfut]
  · intro e he t ht hent
    unfold loadAppConfiguration
    rw [ht]
    simp [hent, he]

/-- C10 witness: an unset start date yields the 0.0 filter, a malformed
start date aborts, a future start date aborts and propagates out of
configuration loading when the topic is valid. -/
theorem start_date_filter_check_witness :
    computeStartDateFilter (fun _ => none) "500.0" = Except.ok "0.0" ∧
      computeStartDateFilter (fun v => if v = "HCS_START_DATE" then some "banana"
          else none) "500.0" =
        Except.error "Invalid HCS Starting Date in configuration." ∧
      computeStartDateFilter (fun v => if v = "HCS_START_DATE" then some "900.0"
          else none) "500.0" =
        Except.error "Invalid HCS Starting Date, value can not be in the future." ∧
      loadAppConfiguration (fun v => if v = "HCS_TOPIC" then some "0.0.99"
          else if v = "HCS_START_DATE" then some "900.0" else none) "500.0" =
        Except.error "Invalid HCS Starting Date, value can not be in the future." :=
  ⟨(start_date_filter_check (fun _ => none) "500.0").1 (Or.inl rfl),
    (start_date_filter_check (fun v => if v = "HCS_START_DATE" then some "banana"
        else none) "500.0").2.1 "banana" (by decide) (by decide) (by decide),
    (start_date_filter_check (fun v => if v = "HCS_START_DATE" then some "900.0"
        else none) "500.0").2.2.1 "900.0" (by decide) (by decide) (by decide) (by decide),
    (start_date_filter_check (fun v => if v = "HCS_TOPIC" then some "0.0.99"
        else if v = "HCS_START_DATE" then some "900.0" else none) "500.0").2.2.2 _
      ((start_date_filter_check (fun v => if v = "HCS_TOPIC" then some "0.0.99"
        else if v = "HCS_START_DATE" then some "900.0" else none) "500.0").2.2.1 "900.0"
        (by decide) (by decide) (by decide) (by decide))
      "0.0.99" (by decide) (by decide)⟩
